import Mathlib

/-!
Verification of the dynalock distributed-lock library (Rust) against its
natural-language specification. The Rust sources embedded here are
src/lib.rs (the DistLock handle and the Locking trait),
src/error.rs (the DynaError taxonomy) and
src/providers/dynamodb/mod.rs (the DynamoDB driver).

Modelling conventions:
* std::time::Duration is a count of nanoseconds (a Nat).
* std::time::Instant is a point on a monotonic clock, a Nat of nanoseconds.
* u64 values are Nats; where the Rust code performs unchecked u64
  arithmetic, overflow is modelled explicitly against 2^64 (debug-build
  overflow aborts are modelled as a distinct `panicked` outcome).
* Network I/O (the DynamoDB client) is modelled by an oracle function the
  operation receives: the oracle maps the request the code builds (and the
  per-call timeout) to the provider's response. Rust panics (unwrap on
  None, arithmetic overflow) are a distinct outcome constructor.
* HashMaps built with the hashmap! macro are association lists in the
  order the source writes the entries; lookup is by key.
-/

namespace Dynalock

/-- Rust std::time::Duration: nanosecond count. -/
structure Duration where
  nanos : Nat
deriving DecidableEq, Repr

/-- Rust Duration::from_secs. -/
def Duration.from_secs (s : Nat) : Duration :=
  ⟨s * 1000000000⟩

/-- Rust Duration::as_secs (whole seconds, truncating). -/
def Duration.as_secs (d : Duration) : Nat :=
  d.nanos / 1000000000

/-- Rust Duration::checked_sub: none exactly when the result would be negative. -/
def Duration.checked_sub (a b : Duration) : Option Duration :=
  if b.nanos ≤ a.nanos then some ⟨a.nanos - b.nanos⟩ else none

/-- Rust std::time::Instant: a monotonic-clock reading in nanoseconds. -/
abbrev Instant := Nat

/-- Rust Instant::elapsed, evaluated when the monotonic clock reads now. -/
def Instant.elapsed (i : Instant) (now : Nat) : Duration :=
  ⟨now - i⟩

/-- The u64 range bound. -/
def U64_MOD : Nat := 2 ^ 64

/-- Unchecked u64 addition as compiled in a debug build: the program aborts
(none) when the mathematical sum leaves the u64 range. -/
def u64_add_checked (a b : Nat) : Option Nat :=
  if a + b < U64_MOD then some (a + b) else none

/-- src/error.rs: kinds of errors (closed set). -/
inductive DynaErrorKind where
  | UnhandledError
  | ProviderError
  | LockAlreadyAcquired
deriving DecidableEq, Repr

/-- src/error.rs: the error type, a kind with an optional description. -/
structure DynaError where
  kind : DynaErrorKind
  description : Option String
deriving DecidableEq, Repr

/-- src/error.rs: DynaError::new. -/
def DynaError.new (kind : DynaErrorKind) (description : Option String) : DynaError :=
  ⟨kind, description⟩

/-- rusoto_dynamodb::AttributeValue; only the fields the driver reads or
writes (s: string value, n: number rendered as a string) are modelled. -/
structure AttributeValue where
  s : Option String := none
  n : Option String := none
deriving DecidableEq, Repr

/-- Association-list lookup, modelling HashMap::get. -/
def mapGet {α : Type} (m : List (String × α)) (k : String) : Option α :=
  (m.find? (fun p => p.fst == k)).map (fun p => p.snd)

/-- rusoto_dynamodb::UpdateItemInput, restricted to the fields the driver sets. -/
structure UpdateItemInput where
  table_name : String
  update_expression : Option String := none
  condition_expression : Option String := none
  expression_attribute_names : Option (List (String × String)) := none
  expression_attribute_values : Option (List (String × AttributeValue)) := none
  key : List (String × AttributeValue)
deriving DecidableEq, Repr

/-- rusoto_dynamodb::GetItemInput, restricted to the fields the driver sets. -/
structure GetItemInput where
  consistent_read : Option Bool := none
  table_name : String
  key : List (String × AttributeValue)
deriving DecidableEq, Repr

/-- rusoto_dynamodb::GetItemOutput, restricted to the item field. -/
structure GetItemOutput where
  item : Option (List (String × AttributeValue)) := none
deriving DecidableEq, Repr

/-- rusoto_dynamodb::UpdateItemError (rusoto 0.32): every variant carries the
message rendered by its Display implementation. -/
inductive UpdateItemError where
  | ConditionalCheckFailed (msg : String)
  | InternalServerError (msg : String)
  | ItemCollectionSizeLimitExceeded (msg : String)
  | ProvisionedThroughputExceeded (msg : String)
  | ResourceNotFound (msg : String)
  | HttpDispatch (msg : String)
  | Credentials (msg : String)
  | Validation (msg : String)
  | Unknown (msg : String)
deriving DecidableEq, Repr

/-- Rust err.to_string() on UpdateItemError (the Display output). -/
def UpdateItemError.to_string : UpdateItemError → String
  | .ConditionalCheckFailed msg => msg
  | .InternalServerError msg => msg
  | .ItemCollectionSizeLimitExceeded msg => msg
  | .ProvisionedThroughputExceeded msg => msg
  | .ResourceNotFound msg => msg
  | .HttpDispatch msg => msg
  | .Credentials msg => msg
  | .Validation msg => msg
  | .Unknown msg => msg

/-- rusoto_dynamodb::GetItemError (rusoto 0.32). -/
inductive GetItemError where
  | InternalServerError (msg : String)
  | ProvisionedThroughputExceeded (msg : String)
  | ResourceNotFound (msg : String)
  | HttpDispatch (msg : String)
  | Credentials (msg : String)
  | Validation (msg : String)
  | Unknown (msg : String)
deriving DecidableEq, Repr

/-- Rust err.to_string() on GetItemError (the Display output). -/
def GetItemError.to_string : GetItemError → String
  | .InternalServerError msg => msg
  | .ProvisionedThroughputExceeded msg => msg
  | .ResourceNotFound msg => msg
  | .HttpDispatch msg => msg
  | .Credentials msg => msg
  | .Validation msg => msg
  | .Unknown msg => msg

/-- std::time::SystemTimeError, returned when SystemTime::duration_since is
asked about an earlier instant; carries the (positive) difference. -/
structure SystemTimeError where
  difference : Duration
deriving DecidableEq, Repr

/-- Rust err.to_string() on SystemTimeError: its Display implementation
prints a fixed message. -/
def SystemTimeError.to_string (_ : SystemTimeError) : String :=
  "second time provided was later than self"

/-- src/providers/dynamodb/mod.rs: impl From of SystemTimeError for DynaError. -/
def DynaError.fromSystemTimeError (err : SystemTimeError) : DynaError :=
  DynaError.new DynaErrorKind.UnhandledError (some err.to_string)

/-- src/providers/dynamodb/mod.rs: impl From of GetItemError for DynaError. -/
def DynaError.fromGetItemError (err : GetItemError) : DynaError :=
  DynaError.new DynaErrorKind.ProviderError (some err.to_string)

/-- src/providers/dynamodb/mod.rs: impl From of UpdateItemError for DynaError. -/
def DynaError.fromUpdateItemError (err : UpdateItemError) : DynaError :=
  match err with
  | UpdateItemError.ConditionalCheckFailed _ =>
      DynaError.new DynaErrorKind.LockAlreadyAcquired none
  | _ =>
      DynaError.new DynaErrorKind.ProviderError (some err.to_string)

/-- src/providers/dynamodb/mod.rs: DynamoDbDriver. The DynamoDbClient field
is pure I/O and is modelled by the oracle each operation receives. -/
structure DynamoDbDriver where
  table_name : String
  partition_key_field_name : String
  token_field_name : String
  duration_field_name : String
  ttl_field_name : String
  ttl_value : Nat
  partition_key_value : String
  current_token : String
deriving DecidableEq, Repr

/-- src/providers/dynamodb/mod.rs: DAY_SECONDS, the number of seconds in 24 hours. -/
def DAY_SECONDS : Nat := 86400

/-- src/providers/dynamodb/mod.rs: DynamoDbDriverInput. -/
structure DynamoDbDriverInput where
  table_name : String
  partition_key_field_name : String
  partition_key_value : String
  token_field_name : String
  duration_field_name : String
  ttl_field_name : String
  ttl_value : Nat
deriving DecidableEq, Repr

/-- src/providers/dynamodb/mod.rs: impl Default for DynamoDbDriverInput. -/
def DynamoDbDriverInput.default : DynamoDbDriverInput where
  table_name := ""
  partition_key_field_name := ""
  partition_key_value := "singleton"
  token_field_name := "rvn"
  duration_field_name := "duration"
  ttl_field_name := "ttl"
  ttl_value := DAY_SECONDS * 7

/-- src/providers/dynamodb/mod.rs: DynamoDbDriver::new (the client argument
is external I/O, represented by oracles at each call site). -/
def DynamoDbDriver.new (input : DynamoDbDriverInput) : DynamoDbDriver where
  table_name := input.table_name
  partition_key_field_name := input.partition_key_field_name
  partition_key_value := input.partition_key_value
  token_field_name := input.token_field_name
  duration_field_name := input.duration_field_name
  ttl_field_name := input.ttl_field_name
  ttl_value := input.ttl_value
  current_token := ""

/-- src/providers/dynamodb/mod.rs: DynamoDbLockInput. -/
structure DynamoDbLockInput where
  timeout : Duration
  consistent_read : Option Bool
deriving DecidableEq, Repr

/-- src/providers/dynamodb/mod.rs: impl Default for DynamoDbLockInput. -/
def DynamoDbLockInput.default : DynamoDbLockInput where
  timeout := Duration.from_secs 10
  consistent_read := some false

/-- src/lib.rs: DistLock, a driver plus the configured lease duration.
The duration getter is the structure field of the same name. -/
structure DistLock where
  driver : DynamoDbDriver
  duration : Duration
deriving DecidableEq, Repr

/-- src/lib.rs: DistLock::new. -/
def DistLock.new (driver : DynamoDbDriver) (duration : Duration) : DistLock :=
  ⟨driver, duration⟩

/-- src/providers/dynamodb/mod.rs: mod expressions, ACQUIRE_UPDATE. -/
def ACQUIRE_UPDATE : String :=
  "SET #token_field = :new_token, #duration_field = :lease, #ttl_field = :ttl"

/-- src/providers/dynamodb/mod.rs: mod expressions, ACQUIRE_CONDITION. -/
def ACQUIRE_CONDITION : String :=
  "attribute_not_exists(#token_field) OR #token_field = :cond_current_token"

/-- src/providers/dynamodb/mod.rs: mod expressions, RELEASE_UPDATE. -/
def RELEASE_UPDATE : String :=
  "REMOVE #token_field"

/-- src/providers/dynamodb/mod.rs: mod expressions, RELEASE_CONDITION. -/
def RELEASE_CONDITION : String :=
  "attribute_exists(#token_field) AND #token_field = :cond_current_token"

/-- Outcome of acquire_lock. A Rust panic (u64 overflow in a debug build)
is the panicked constructor; otherwise Err or Ok as in the source. -/
inductive AcqResult where
  | panicked
  | err (e : DynaError)
  | ok (start : Instant)
deriving DecidableEq, Repr

/-- Outcome of refresh_lock. A Rust panic (unwrap on a None string value)
is the panicked constructor; otherwise Err or Ok as in the source. -/
inductive RefreshResult where
  | panicked
  | err (e : DynaError)
  | ok
deriving DecidableEq, Repr

/-- The external world acquire_lock interacts with, in source order:
the UUID v4 the attempt generates, the wall-clock read (epoch seconds, or a
clock error), the provider's response to the issued update request given the
per-call timeout, and dcall, the monotonic time the store round trip takes
(so the call returns at entry time plus dcall). -/
structure AcquireWorld where
  new_token : String
  now_epoch : Except SystemTimeError Nat
  store : UpdateItemInput → Duration → Except UpdateItemError Unit
  dcall : Nat

/-- Lines 200-203 of src/providers/dynamodb/mod.rs: use the new token as the
current token if this is our first run. -/
def acquire_adopt (lock : DistLock) (new_token : String) : DistLock :=
  if lock.driver.current_token.isEmpty then
    { lock with driver := { lock.driver with current_token := new_token } }
  else lock

/-- Lines 210-232 of src/providers/dynamodb/mod.rs: the UpdateItemInput that
acquire_lock builds (evaluated after the first-run token adoption). -/
def acquire_update_input (lock : DistLock) (new_token : String) (ttl_secs : Nat) :
    UpdateItemInput where
  table_name := lock.driver.table_name
  update_expression := some ACQUIRE_UPDATE
  condition_expression := some ACQUIRE_CONDITION
  expression_attribute_names := some
    [("#token_field", lock.driver.token_field_name),
     ("#duration_field", lock.driver.duration_field_name),
     ("#ttl_field", lock.driver.ttl_field_name)]
  expression_attribute_values := some
    [(":new_token", { s := some new_token }),
     (":lease", { n := some (toString lock.duration.as_secs) }),
     (":ttl", { n := some (toString ttl_secs) }),
     (":cond_current_token", { s := some lock.driver.current_token })]
  key :=
    [(lock.driver.partition_key_field_name,
      { s := some lock.driver.partition_key_value })]

/-- Lines 197-255 of src/providers/dynamodb/mod.rs: acquire_lock. The call
enters with the monotonic clock at t0; Instant::now() right after the store
call returns reads t0 + w.dcall. Returns the driver state after the call
(for a panic, the state at the abort) and the outcome. -/
def acquire_lock (lock : DistLock) (input : DynamoDbLockInput) (w : AcquireWorld)
    (t0 : Instant) : DistLock × AcqResult :=
  let new_token := w.new_token
  let lock1 := acquire_adopt lock new_token
  match w.now_epoch with
  | Except.error e => (lock1, AcqResult.err (DynaError.fromSystemTimeError e))
  | Except.ok now_secs =>
    match u64_add_checked now_secs lock1.driver.ttl_value with
    | none => (lock1, AcqResult.panicked)
    | some ttl_secs =>
      let update_input := acquire_update_input lock1 new_token ttl_secs
      match w.store update_input input.timeout with
      | Except.error e => (lock1, AcqResult.err (DynaError.fromUpdateItemError e))
      | Except.ok _ =>
        let start : Instant := t0 + w.dcall
        (({ lock1 with driver := { lock1.driver with current_token := new_token } }),
         AcqResult.ok start)

/-- Lines 259-269 of src/providers/dynamodb/mod.rs: the GetItemInput that
refresh_lock builds. -/
def refresh_get_input (lock : DistLock) (input : DynamoDbLockInput) : GetItemInput where
  consistent_read := input.consistent_read
  table_name := lock.driver.table_name
  key :=
    [(lock.driver.partition_key_field_name,
      { s := some lock.driver.partition_key_value })]

/-- Lines 257-296 of src/providers/dynamodb/mod.rs: refresh_lock. The store
oracle maps the issued get request and timeout to the provider's response. -/
def refresh_lock (lock : DistLock) (input : DynamoDbLockInput)
    (store : GetItemInput → Duration → Except GetItemError GetItemOutput) :
    DistLock × RefreshResult :=
  let get_input := refresh_get_input lock input
  match store get_input input.timeout with
  | Except.error e => (lock, RefreshResult.err (DynaError.fromGetItemError e))
  | Except.ok output =>
    match output.item with
    | none => (lock, RefreshResult.ok)
    | some item =>
      match mapGet item lock.driver.token_field_name with
      | none => (lock, RefreshResult.ok)
      | some attr =>
        match attr.s with
        | none => (lock, RefreshResult.panicked)
        | some tok =>
          ({ lock with driver := { lock.driver with current_token := tok } },
           RefreshResult.ok)

/-- Lines 300-317 of src/providers/dynamodb/mod.rs: the UpdateItemInput that
release_lock builds. -/
def release_update_input (lock : DistLock) : UpdateItemInput where
  table_name := lock.driver.table_name
  update_expression := some RELEASE_UPDATE
  condition_expression := some RELEASE_CONDITION
  expression_attribute_names := some
    [("#token_field", lock.driver.token_field_name)]
  expression_attribute_values := some
    [(":cond_current_token", { s := some lock.driver.current_token })]
  key :=
    [(lock.driver.partition_key_field_name,
      { s := some lock.driver.partition_key_value })]

/-- Lines 298-334 of src/providers/dynamodb/mod.rs: release_lock. -/
def release_lock (lock : DistLock) (input : DynamoDbLockInput)
    (store : UpdateItemInput → Duration → Except UpdateItemError Unit) :
    DistLock × Except DynaError Unit :=
  match store (release_update_input lock) input.timeout with
  | Except.error e => (lock, Except.error (DynaError.fromUpdateItemError e))
  | Except.ok _ =>
    ({ lock with driver := { lock.driver with current_token := "" } },
     Except.ok ())

/-- Lines 336-338 of src/providers/dynamodb/mod.rs: remaining, evaluated when
the monotonic clock reads now. -/
def remaining (lock : DistLock) (instant : Instant) (now : Nat) : Option Duration :=
  lock.duration.checked_sub (instant.elapsed now)

/-- Store-side semantics of the conditional update release_lock issues
(DynamoDB evaluates RELEASE_CONDITION against the stored record): stored is
the record's token attribute value, or none when the attribute or record is
absent. The condition "attribute_exists(#token_field) AND #token_field =
:cond_current_token" holds exactly when stored equals some of the supplied
condition value. -/
def release_store (stored : Option String) :
    UpdateItemInput → Duration → Except UpdateItemError Unit :=
  fun inp _ =>
    match mapGet (inp.expression_attribute_values.getD []) ":cond_current_token" with
    | some av =>
      match av.s with
      | some cond =>
        if stored = some cond then Except.ok ()
        else Except.error (UpdateItemError.ConditionalCheckFailed "The conditional request failed")
      | none => Except.error (UpdateItemError.Validation "invalid condition operand")
    | none => Except.error (UpdateItemError.Validation "missing condition operand")

/-! Helper definitions and lemmas shared by the theorems below. -/

/-- Sample driver configuration matching the repository's unit tests. -/
def sampleDriver : DynamoDbDriver :=
  DynamoDbDriver.new
    { DynamoDbDriverInput.default with
        table_name := "test_lock_table"
        partition_key_field_name := "lock_id" }

/-- First-run adoption never changes the ttl_value field. -/
theorem acquire_adopt_ttl_value (lock : DistLock) (tok : String) :
    (acquire_adopt lock tok).driver.ttl_value = lock.driver.ttl_value := by
  unfold acquire_adopt
  split <;> rfl

/-- First-run adoption never changes the configured duration. -/
theorem acquire_adopt_duration (lock : DistLock) (tok : String) :
    (acquire_adopt lock tok).duration = lock.duration := by
  unfold acquire_adopt
  split <;> rfl

/-- The token after first-run adoption: the fresh token when the local token
was empty, the previous local token otherwise. -/
theorem acquire_adopt_current_token (lock : DistLock) (tok : String) :
    (acquire_adopt lock tok).driver.current_token =
      if lock.driver.current_token = "" then tok else lock.driver.current_token := by
  unfold acquire_adopt
  by_cases h : lock.driver.current_token = ""
  · simp [h, String.isEmpty_iff]
  · simp [h, String.isEmpty_iff]

/-! Claim C1: the remaining-time query. -/

/-- Claim C1 counterexample: with a 5-second lease and the monotonic elapsed
time exactly equal to the configured duration, remaining returns some zero
duration, not none, contradicting the claimed boundary behavior. -/
theorem remaining_boundary_cex :
    Instant.elapsed 0 5000000000 =
      (DistLock.new sampleDriver (Duration.from_secs 5)).duration ∧
    remaining (DistLock.new sampleDriver (Duration.from_secs 5)) 0 5000000000 =
      some ⟨0⟩ ∧
    remaining (DistLock.new sampleDriver (Duration.from_secs 5)) 0 5000000000 ≠
      none := by
  refine ⟨?_, ?_, ?_⟩ <;> decide

/-- Claim C1 (amended): remaining returns the configured duration minus the
monotonic elapsed time as long as elapsed time is at most the configured
duration (in particular some zero at exact equality), returns none exactly
when elapsed time strictly exceeds the configured duration, and for any
positive elapsed time a returned value is strictly less than the configured
duration. -/
theorem remaining_spec (lock : DistLock) (instant : Instant) (now : Nat) :
    (remaining lock instant now = none ↔
      lock.duration.nanos < (Instant.elapsed instant now).nanos) ∧
    ((Instant.elapsed instant now).nanos ≤ lock.duration.nanos →
      remaining lock instant now =
        some ⟨lock.duration.nanos - (Instant.elapsed instant now).nanos⟩) ∧
    (0 < (Instant.elapsed instant now).nanos →
      ∀ r, remaining lock instant now = some r → r.nanos < lock.duration.nanos) := by
  unfold remaining Duration.checked_sub
  refine ⟨?_, ?_, ?_⟩
  · split
    · simp
      omega
    · simp
      omega
  · intro h
    simp [h]
  · intro hpos r hr
    by_cases h : (Instant.elapsed instant now).nanos ≤ lock.duration.nanos
    · simp [h] at hr
      subst hr
      simp
      omega
    · simp [h] at hr

/-- Witness for the amended C1 theorem: a 5-second lease with 3 seconds
elapsed has 2 seconds remaining. -/
theorem remaining_spec_witness :
    remaining (DistLock.new sampleDriver (Duration.from_secs 5)) 0 3000000000 =
      some ⟨(DistLock.new sampleDriver (Duration.from_secs 5)).duration.nanos -
        (Instant.elapsed 0 3000000000).nanos⟩ :=
  (remaining_spec (DistLock.new sampleDriver (Duration.from_secs 5)) 0
    3000000000).2.1 (by decide)

/-! Claim C3: the provider-failure mapping into the closed error taxonomy. -/

/-- Claim C3: the mapping of provider failures into the error taxonomy is
total and deterministic (each conversion is a total Lean function): a
conditional-check-failed update error maps to LockAlreadyAcquired with no
description, every other update failure and every get failure maps to
ProviderError carrying the underlying message, and a system-clock read
failure maps to UnhandledError carrying the underlying message. -/
theorem error_mapping_spec :
    (∀ msg, DynaError.fromUpdateItemError (UpdateItemError.ConditionalCheckFailed msg) =
        DynaError.new DynaErrorKind.LockAlreadyAcquired none) ∧
    (∀ e : UpdateItemError, (∀ msg, e ≠ UpdateItemError.ConditionalCheckFailed msg) →
        DynaError.fromUpdateItemError e =
          DynaError.new DynaErrorKind.ProviderError (some e.to_string)) ∧
    (∀ e : GetItemError, DynaError.fromGetItemError e =
        DynaError.new DynaErrorKind.ProviderError (some e.to_string)) ∧
    (∀ e : SystemTimeError, DynaError.fromSystemTimeError e =
        DynaError.new DynaErrorKind.UnhandledError (some e.to_string)) := by
  refine ⟨fun msg => rfl, ?_, fun e => rfl, fun e => rfl⟩
  intro e h
  match e with
  | UpdateItemError.ConditionalCheckFailed msg => exact absurd rfl (h msg)
  | UpdateItemError.InternalServerError msg => rfl
  | UpdateItemError.ItemCollectionSizeLimitExceeded msg => rfl
  | UpdateItemError.ProvisionedThroughputExceeded msg => rfl
  | UpdateItemError.ResourceNotFound msg => rfl
  | UpdateItemError.HttpDispatch msg => rfl
  | UpdateItemError.Credentials msg => rfl
  | UpdateItemError.Validation msg => rfl
  | UpdateItemError.Unknown msg => rfl

/-- Witness for the C3 theorem: a validation failure (not a conditional-check
failure) maps to ProviderError carrying its message. -/
theorem error_mapping_spec_witness :
    DynaError.fromUpdateItemError (UpdateItemError.Validation "bad request") =
      DynaError.new DynaErrorKind.ProviderError (some "bad request") :=
  error_mapping_spec.2.1 (UpdateItemError.Validation "bad request")
    (fun _ h => UpdateItemError.noConfusion h)

/-! Claim C2: acquire_lock on a conditional-check failure. -/

/-- A fresh lock handle with an empty believed-current token. -/
def sampleLock : DistLock :=
  DistLock.new sampleDriver (Duration.from_secs 10)

/-- A world in which the store reports every update as a failed conditional
check: another process holds the lock. -/
def ccfWorld : AcquireWorld where
  new_token := "11111111-2222-3333-4444-555555555555"
  now_epoch := Except.ok 1700000000
  store := fun _ _ =>
    Except.error (UpdateItemError.ConditionalCheckFailed "The conditional request failed")
  dcall := 5

/-- Claim C2 counterexample: from the initial state with an empty
believed-current token, an acquire_lock that fails with a conditional-check
failure does return LockAlreadyAcquired, but the locally believed token is
not left unchanged: the first-run adoption has already overwritten the empty
token with the freshly generated one before the call. -/
theorem acquire_ccf_initial_token_cex :
    sampleLock.driver.current_token = "" ∧
    (acquire_lock sampleLock DynamoDbLockInput.default ccfWorld 0).2 =
      AcqResult.err (DynaError.new DynaErrorKind.LockAlreadyAcquired none) ∧
    (acquire_lock sampleLock DynamoDbLockInput.default ccfWorld 0).1.driver.current_token ≠
      sampleLock.driver.current_token := by
  refine ⟨?_, ?_, ?_⟩ <;> decide

/-- Claim C2 (amended): when acquire_lock fails because the store reports the
conditional check was not met, it returns an error of kind
LockAlreadyAcquired; the driver's believed-current token is unchanged
whenever it was nonempty before the call, and when it was empty (the initial
state) it equals the token freshly generated for this attempt, adopted
before the store call. -/
theorem acquire_ccf_spec (lock : DistLock) (input : DynamoDbLockInput)
    (w : AcquireWorld) (t0 : Instant) (now : Nat) (msg : String)
    (hclock : w.now_epoch = Except.ok now)
    (hovf : now + lock.driver.ttl_value < U64_MOD)
    (hstore : ∀ inp t, w.store inp t =
      Except.error (UpdateItemError.ConditionalCheckFailed msg)) :
    (acquire_lock lock input w t0).2 =
      AcqResult.err (DynaError.new DynaErrorKind.LockAlreadyAcquired none) ∧
    (lock.driver.current_token ≠ "" →
      (acquire_lock lock input w t0).1.driver.current_token =
        lock.driver.current_token) ∧
    (lock.driver.current_token = "" →
      (acquire_lock lock input w t0).1.driver.current_token = w.new_token) := by
  have heq : acquire_lock lock input w t0 =
      (acquire_adopt lock w.new_token,
       AcqResult.err (DynaError.new DynaErrorKind.LockAlreadyAcquired none)) := by
    unfold acquire_lock
    rw [hclock]
    simp only [u64_add_checked, acquire_adopt_ttl_value]
    rw [if_pos hovf]
    simp only [hstore]
    rfl
  rw [heq]
  refine ⟨rfl, ?_, ?_⟩
  · intro h
    rw [acquire_adopt_current_token, if_neg h]
  · intro h
    rw [acquire_adopt_current_token, if_pos h]

/-- Witness for the amended C2 theorem: a driver that already believes token
t-old keeps that belief across a failed acquire, and the failure is
LockAlreadyAcquired. -/
theorem acquire_ccf_spec_witness :
    (acquire_lock (DistLock.new { sampleDriver with current_token := "t-old" }
        (Duration.from_secs 10)) DynamoDbLockInput.default ccfWorld 0).2 =
      AcqResult.err (DynaError.new DynaErrorKind.LockAlreadyAcquired none) ∧
    (acquire_lock (DistLock.new { sampleDriver with current_token := "t-old" }
        (Duration.from_secs 10)) DynamoDbLockInput.default ccfWorld 0).1.driver.current_token =
      "t-old" := by
  have h := acquire_ccf_spec
    (DistLock.new { sampleDriver with current_token := "t-old" } (Duration.from_secs 10))
    DynamoDbLockInput.default ccfWorld 0 1700000000 "The conditional request failed"
    rfl (by decide) (fun _ _ => rfl)
  exact ⟨h.1, h.2.1 (by decide)⟩

/-! Claim C4: successful acquire_lock captures the instant after the call
and adopts the fresh token. -/

/-- Claim C4: on every successful acquire_lock, the returned lease-start
instant is the monotonic reading taken when the conditional-write call has
returned (entry time plus the round-trip time, hence never before the call),
and the driver's believed-current token afterwards equals the token freshly
generated for this attempt. -/
theorem acquire_success_spec (lock : DistLock) (input : DynamoDbLockInput)
    (w : AcquireWorld) (t0 : Instant) (lockA : DistLock) (start : Instant)
    (h : acquire_lock lock input w t0 = (lockA, AcqResult.ok start)) :
    start = t0 + w.dcall ∧ t0 ≤ start ∧
    lockA.driver.current_token = w.new_token := by
  unfold acquire_lock at h
  cases hc : w.now_epoch with
  | error e =>
    rw [hc] at h
    simp at h
  | ok now_secs =>
    rw [hc] at h
    cases hadd : u64_add_checked now_secs (acquire_adopt lock w.new_token).driver.ttl_value with
    | none =>
      simp only [hadd] at h
      simp at h
    | some ttl_secs =>
      simp only [hadd] at h
      cases hs : w.store (acquire_update_input (acquire_adopt lock w.new_token)
          w.new_token ttl_secs) input.timeout with
      | error e =>
        simp only [hs] at h
        simp at h
      | ok u =>
        simp only [hs] at h
        simp only [Prod.mk.injEq, AcqResult.ok.injEq] at h
        obtain ⟨h1, h2⟩ := h
        refine ⟨h2.symm, ?_, ?_⟩
        · exact h2 ▸ Nat.le_add_right t0 w.dcall
        · rw [← h1]

/-- Witness for the C4 theorem: a concrete successful acquire returns the
post-call instant and installs the generated token. -/
theorem acquire_success_spec_witness :
    (7 : Instant) = 2 + 5 ∧ (2 : Instant) ≤ 7 ∧
    (acquire_lock sampleLock DynamoDbLockInput.default
      { ccfWorld with store := fun _ _ => Except.ok () } 2).1.driver.current_token =
      "11111111-2222-3333-4444-555555555555" :=
  acquire_success_spec sampleLock DynamoDbLockInput.default
    { ccfWorld with store := fun _ _ => Except.ok () } 2
    (acquire_lock sampleLock DynamoDbLockInput.default
      { ccfWorld with store := fun _ _ => Except.ok () } 2).1 7 (by decide)

/-! Claim C5: refresh_lock behavior over read responses. -/

/-- A store whose read response carries the token attribute without a string
value (the attribute holds a number instead). -/
def numTokenStore : GetItemInput → Duration → Except GetItemError GetItemOutput :=
  fun _ _ => Except.ok { item := some [("rvn", { n := some "42" })] }

/-- Claim C5 counterexample: a read response whose token attribute is present
but carries no string value. The read itself succeeds and the response
contains the token attribute, yet refresh_lock neither overwrites the local
token nor returns success or an error: it panics on the unwrap, so the
claimed case split over all read responses is violated. -/
theorem refresh_overwrite_cex :
    numTokenStore (refresh_get_input sampleLock DynamoDbLockInput.default)
        DynamoDbLockInput.default.timeout =
      Except.ok { item := some [("rvn", { n := some "42" })] } ∧
    mapGet [(("rvn" : String), ({ n := some "42" } : AttributeValue))]
        sampleLock.driver.token_field_name ≠ none ∧
    refresh_lock sampleLock DynamoDbLockInput.default numTokenStore =
      (sampleLock, RefreshResult.panicked) := by
  refine ⟨rfl, ?_, ?_⟩ <;> decide

/-- Claim C5 (amended): for every driver state and read response in which the
token attribute, when present, carries a string value: refresh_lock
overwrites the locally believed token with the stored token exactly when the
response contains the token attribute; when the record or the token
attribute is absent it returns success and leaves the local token unchanged;
and it returns an error (ProviderError with the underlying message) only
when the read call itself fails. When the token attribute is present without
a string value, refresh_lock panics instead. -/
theorem refresh_spec (lock : DistLock) (input : DynamoDbLockInput)
    (store : GetItemInput → Duration → Except GetItemError GetItemOutput) :
    (∀ e, store (refresh_get_input lock input) input.timeout = Except.error e →
      refresh_lock lock input store =
        (lock, RefreshResult.err
          (DynaError.new DynaErrorKind.ProviderError (some e.to_string)))) ∧
    (∀ output, store (refresh_get_input lock input) input.timeout = Except.ok output →
      output.item = none →
      refresh_lock lock input store = (lock, RefreshResult.ok)) ∧
    (∀ output item, store (refresh_get_input lock input) input.timeout = Except.ok output →
      output.item = some item →
      mapGet item lock.driver.token_field_name = none →
      refresh_lock lock input store = (lock, RefreshResult.ok)) ∧
    (∀ output item attr tok,
      store (refresh_get_input lock input) input.timeout = Except.ok output →
      output.item = some item →
      mapGet item lock.driver.token_field_name = some attr →
      attr.s = some tok →
      refresh_lock lock input store =
        ({ lock with driver := { lock.driver with current_token := tok } },
         RefreshResult.ok)) ∧
    (∀ e, (refresh_lock lock input store).2 = RefreshResult.err e →
      ∃ ge, store (refresh_get_input lock input) input.timeout = Except.error ge) := by
  refine ⟨?_, ?_, ?_, ?_, ?_⟩
  · intro e he
    simp only [refresh_lock, he]
    rfl
  · intro output hok hnone
    simp only [refresh_lock, hok, hnone]
  · intro output item hok hsome hattr
    simp only [refresh_lock, hok, hsome, hattr]
  · intro output item attr tok hok hsome hattr hs
    simp only [refresh_lock, hok, hsome, hattr, hs]
  · intro e he
    cases hs : store (refresh_get_input lock input) input.timeout with
    | error ge => exact ⟨ge, rfl⟩
    | ok output =>
      exfalso
      simp only [refresh_lock, hs] at he
      split at he
      · simp at he
      · split at he
        · simp at he
        · split at he
          · simp at he
          · simp at he

/-- Witness for the amended C5 theorem: a well-formed response carrying a
string token overwrites the believed token and succeeds. -/
theorem refresh_spec_witness :
    refresh_lock sampleLock DynamoDbLockInput.default
        (fun _ _ => Except.ok { item := some [("rvn", { s := some "remote-token" })] }) =
      ({ sampleLock with driver :=
          { sampleLock.driver with current_token := "remote-token" } },
       RefreshResult.ok) :=
  (refresh_spec sampleLock DynamoDbLockInput.default
      (fun _ _ => Except.ok { item := some [("rvn", { s := some "remote-token" })] })).2.2.2.1
    { item := some [("rvn", { s := some "remote-token" })] }
    [("rvn", { s := some "remote-token" })]
    { s := some "remote-token" } "remote-token" rfl rfl (by decide) rfl

/-! Claim C6: release_lock against the store-side conditional semantics. -/

/-- Claim C6: release_lock clears the locally believed token exactly when the
conditional removal succeeds at the store, i.e. when the stored token
attribute exists and equals the believed-current token; when the condition
fails it returns an error of kind LockAlreadyAcquired and leaves the locally
believed token (indeed the whole handle) unchanged. -/
theorem release_spec (lock : DistLock) (input : DynamoDbLockInput)
    (stored : Option String) :
    (stored = some lock.driver.current_token →
      release_lock lock input (release_store stored) =
        ({ lock with driver := { lock.driver with current_token := "" } },
         Except.ok ())) ∧
    (stored ≠ some lock.driver.current_token →
      release_lock lock input (release_store stored) =
        (lock, Except.error (DynaError.new DynaErrorKind.LockAlreadyAcquired none))) := by
  constructor
  · intro h
    simp [release_lock, release_store, release_update_input, mapGet, h]
  · intro h
    simp [release_lock, release_store, release_update_input, mapGet, h,
      DynaError.fromUpdateItemError]

/-- Witness for the C6 theorem: a matching stored token is cleared locally,
and a mismatched stored token leaves the local belief in place with a
LockAlreadyAcquired error. -/
theorem release_spec_witness :
    release_lock (DistLock.new { sampleDriver with current_token := "tokA" }
        (Duration.from_secs 10)) DynamoDbLockInput.default
        (release_store (some "tokA")) =
      ({ DistLock.new { sampleDriver with current_token := "tokA" }
          (Duration.from_secs 10) with driver :=
          { (DistLock.new { sampleDriver with current_token := "tokA" }
              (Duration.from_secs 10)).driver with current_token := "" } },
       Except.ok ()) ∧
    release_lock (DistLock.new { sampleDriver with current_token := "tokA" }
        (Duration.from_secs 10)) DynamoDbLockInput.default
        (release_store (some "tokB")) =
      (DistLock.new { sampleDriver with current_token := "tokA" }
        (Duration.from_secs 10),
       Except.error (DynaError.new DynaErrorKind.LockAlreadyAcquired none)) :=
  ⟨(release_spec (DistLock.new { sampleDriver with current_token := "tokA" }
      (Duration.from_secs 10)) DynamoDbLockInput.default (some "tokA")).1 rfl,
   (release_spec (DistLock.new { sampleDriver with current_token := "tokA" }
      (Duration.from_secs 10)) DynamoDbLockInput.default (some "tokB")).2 (by decide)⟩

/-! Claim C7: the configured lease duration is immutable across operations. -/

/-- One call through the Locking trait on a DistLock handle, with the
external world that call interacts with. -/
inductive LockOp where
  | acquireOp (input : DynamoDbLockInput) (w : AcquireWorld) (t0 : Instant)
  | refreshOp (input : DynamoDbLockInput)
      (store : GetItemInput → Duration → Except GetItemError GetItemOutput)
  | releaseOp (input : DynamoDbLockInput)
      (store : UpdateItemInput → Duration → Except UpdateItemError Unit)
  | remainingOp (instant : Instant) (now : Nat)

/-- The handle state after one call. The remaining case returns the handle
unchanged because remaining takes the handle by shared reference in the
source and cannot mutate it. -/
def applyOp (lock : DistLock) : LockOp → DistLock
  | LockOp.acquireOp input w t0 => (acquire_lock lock input w t0).1
  | LockOp.refreshOp input store => (refresh_lock lock input store).1
  | LockOp.releaseOp input store => (release_lock lock input store).1
  | LockOp.remainingOp _ _ => lock

/-- The handle state after a sequence of calls. -/
def runOps (lock : DistLock) : List LockOp → DistLock
  | [] => lock
  | op :: ops => runOps (applyOp lock op) ops

/-- acquire_lock never changes the configured duration. -/
theorem acquire_lock_duration (lock : DistLock) (input : DynamoDbLockInput)
    (w : AcquireWorld) (t0 : Instant) :
    (acquire_lock lock input w t0).1.duration = lock.duration := by
  simp only [acquire_lock]
  split
  · exact acquire_adopt_duration lock w.new_token
  · split
    · exact acquire_adopt_duration lock w.new_token
    · split
      · exact acquire_adopt_duration lock w.new_token
      · exact acquire_adopt_duration lock w.new_token

/-- refresh_lock never changes the configured duration. -/
theorem refresh_lock_duration (lock : DistLock) (input : DynamoDbLockInput)
    (store : GetItemInput → Duration → Except GetItemError GetItemOutput) :
    (refresh_lock lock input store).1.duration = lock.duration := by
  simp only [refresh_lock]
  split
  · rfl
  · split
    · rfl
    · split
      · rfl
      · split
        · rfl
        · rfl

/-- release_lock never changes the configured duration. -/
theorem release_lock_duration (lock : DistLock) (input : DynamoDbLockInput)
    (store : UpdateItemInput → Duration → Except UpdateItemError Unit) :
    (release_lock lock input store).1.duration = lock.duration := by
  simp only [release_lock]
  split
  · rfl
  · rfl

/-- No single call changes the configured duration. -/
theorem applyOp_duration (lock : DistLock) (op : LockOp) :
    (applyOp lock op).duration = lock.duration := by
  cases op with
  | acquireOp input w t0 => exact acquire_lock_duration lock input w t0
  | refreshOp input store => exact refresh_lock_duration lock input store
  | releaseOp input store => exact release_lock_duration lock input store
  | remainingOp instant now => rfl

/-- Claim C7: for every driver, configured duration and sequence of
acquire_lock, refresh_lock, release_lock and remaining calls, the duration
field of the DistLock handle still equals the value passed to DistLock::new
(so the duration getter always returns it); the lock operations touch only
the driver field. -/
theorem duration_immutable (driver : DynamoDbDriver) (dur : Duration)
    (ops : List LockOp) :
    (runOps (DistLock.new driver dur) ops).duration = dur ∧
    (DistLock.new driver dur).duration = dur := by
  have H : ∀ (ops : List LockOp) (lock : DistLock),
      (runOps lock ops).duration = lock.duration := by
    intro ops
    induction ops with
    | nil => intro lock; rfl
    | cons op rest ih =>
      intro lock
      simp only [runOps]
      rw [ih (applyOp lock op), applyOp_duration]
  exact ⟨H ops (DistLock.new driver dur), rfl⟩

/-! Claim C8: default operation inputs, record shape and the TTL attribute. -/

/-- Claim C8: the default per-call timeout is 10 seconds and the default
refresh consistency flag requests a non-strongly-consistent read; the
default token, duration and TTL field names are rvn, duration and ttl, and
the default TTL window is 604800 seconds (7 days); the update request that
acquire_lock issues carries, in its ttl attribute value, the current epoch
seconds plus the configured TTL window, and the whole outcome of
acquire_lock is determined by the store's response to exactly that request. -/
theorem defaults_and_ttl_spec :
    DynamoDbLockInput.default.timeout = Duration.from_secs 10 ∧
    DynamoDbLockInput.default.consistent_read = some false ∧
    DynamoDbDriverInput.default.token_field_name = "rvn" ∧
    DynamoDbDriverInput.default.duration_field_name = "duration" ∧
    DynamoDbDriverInput.default.ttl_field_name = "ttl" ∧
    DynamoDbDriverInput.default.ttl_value = 604800 ∧
    (∀ (lock : DistLock) (tok : String) (ttl_secs : Nat),
      mapGet ((acquire_update_input lock tok ttl_secs).expression_attribute_values.getD [])
          ":ttl" =
        some { s := none, n := some (toString ttl_secs) }) ∧
    (∀ (lock : DistLock) (input : DynamoDbLockInput) (w : AcquireWorld)
        (t0 : Instant) (now : Nat),
      w.now_epoch = Except.ok now →
      now + lock.driver.ttl_value < U64_MOD →
      acquire_lock lock input w t0 =
        match w.store (acquire_update_input (acquire_adopt lock w.new_token)
            w.new_token (now + lock.driver.ttl_value)) input.timeout with
        | Except.error e =>
            (acquire_adopt lock w.new_token,
             AcqResult.err (DynaError.fromUpdateItemError e))
        | Except.ok _ =>
            ({ acquire_adopt lock w.new_token with driver :=
                { (acquire_adopt lock w.new_token).driver with
                    current_token := w.new_token } },
             AcqResult.ok (t0 + w.dcall))) := by
  refine ⟨rfl, rfl, rfl, rfl, rfl, rfl, ?_, ?_⟩
  · intro lock tok ttl_secs
    rfl
  · intro lock input w t0 now hclock hovf
    simp only [acquire_lock, hclock, u64_add_checked, acquire_adopt_ttl_value]
    rw [if_pos hovf]

/-- Witness for the C8 theorem: with a store that accepts the update, a
concrete acquire produces exactly the outcome dictated by the store's
response to the built request. -/
theorem defaults_and_ttl_spec_witness :
    acquire_lock sampleLock DynamoDbLockInput.default
        { ccfWorld with store := fun _ _ => Except.ok () } 0 =
      match ({ ccfWorld with store := fun _ _ => Except.ok () } :
          AcquireWorld).store (acquire_update_input
            (acquire_adopt sampleLock ccfWorld.new_token) ccfWorld.new_token
            (1700000000 + sampleLock.driver.ttl_value))
          DynamoDbLockInput.default.timeout with
      | Except.error e =>
          (acquire_adopt sampleLock ccfWorld.new_token,
           AcqResult.err (DynaError.fromUpdateItemError e))
      | Except.ok _ =>
          ({ acquire_adopt sampleLock ccfWorld.new_token with driver :=
              { (acquire_adopt sampleLock ccfWorld.new_token).driver with
                  current_token := ccfWorld.new_token } },
           AcqResult.ok (0 + ({ ccfWorld with store := fun _ _ => Except.ok () } :
             AcquireWorld).dcall)) :=
  defaults_and_ttl_spec.2.2.2.2.2.2.2 sampleLock DynamoDbLockInput.default
    { ccfWorld with store := fun _ _ => Except.ok () } 0 1700000000 rfl (by decide)

/-! Claim C9: refresh_lock panics on a token attribute without a string value. -/

/-- Claim C9: if the read performed by refresh_lock returns a record whose
token attribute is present but carries no string value, refresh_lock panics
on the unwrap instead of returning an error of any kind; an error outcome
for this response shape is therefore unreachable. -/
theorem refresh_malformed_panics (lock : DistLock) (input : DynamoDbLockInput)
    (store : GetItemInput → Duration → Except GetItemError GetItemOutput)
    (output : GetItemOutput) (item : List (String × AttributeValue))
    (attr : AttributeValue)
    (hstore : store (refresh_get_input lock input) input.timeout = Except.ok output)
    (hitem : output.item = some item)
    (hattr : mapGet item lock.driver.token_field_name = some attr)
    (hs : attr.s = none) :
    refresh_lock lock input store = (lock, RefreshResult.panicked) := by
  simp only [refresh_lock, hstore, hitem, hattr, hs]

/-- Witness for the C9 theorem: a concrete response whose token attribute
holds a number and no string makes refresh_lock panic. -/
theorem refresh_malformed_panics_witness :
    refresh_lock sampleLock DynamoDbLockInput.default numTokenStore =
      (sampleLock, RefreshResult.panicked) :=
  refresh_malformed_panics sampleLock DynamoDbLockInput.default numTokenStore
    { item := some [("rvn", { n := some "42" })] }
    [("rvn", { n := some "42" })] { n := some "42" } rfl rfl (by decide) rfl

/-! Claim C10: the TTL addition in acquire_lock can overflow u64. -/

/-- Claim C10: acquire_lock computes the TTL attribute by an unchecked u64
addition of the current epoch seconds and the configured ttl_value; whenever
that sum leaves the u64 range (possible for ttl_value near the u64 maximum),
acquire_lock panics (debug-build overflow abort) instead of returning an
UnhandledError, so it is not total over all driver configurations. -/
theorem acquire_ttl_overflow (lock : DistLock) (input : DynamoDbLockInput)
    (w : AcquireWorld) (t0 : Instant) (now : Nat)
    (hclock : w.now_epoch = Except.ok now)
    (hovf : U64_MOD ≤ now + lock.driver.ttl_value) :
    (acquire_lock lock input w t0).2 = AcqResult.panicked := by
  simp only [acquire_lock, hclock, u64_add_checked, acquire_adopt_ttl_value]
  rw [if_neg (Nat.not_lt.mpr hovf)]

/-- Witness for the C10 theorem: with ttl_value at the u64 maximum and the
clock at epoch second 1, the TTL addition overflows and acquire panics. -/
theorem acquire_ttl_overflow_witness :
    (acquire_lock (DistLock.new { sampleDriver with ttl_value := 2 ^ 64 - 1 }
        (Duration.from_secs 10)) DynamoDbLockInput.default
        { ccfWorld with now_epoch := Except.ok 1 } 0).2 = AcqResult.panicked :=
  acquire_ttl_overflow (DistLock.new { sampleDriver with ttl_value := 2 ^ 64 - 1 }
      (Duration.from_secs 10)) DynamoDbLockInput.default
    { ccfWorld with now_epoch := Except.ok 1 } 0 1 rfl (by decide)

end Dynalock
